import Mathlib

/-!
Shallow embedding of `.github/workflows/scripts/gh_cli.py`, a wrapper of the
GitHub CLI for pull-request actions.

Modelling conventions:
* Each Python function is a pure Lean function from an *environment* (the
  outcomes the external world can produce: file-write success, subprocess
  results, JSON decoding results) to a trace of observable events plus its
  Python return value, wrapped in `Except PyExn` to model exceptions.
* A `try`/`except` block is modelled by a body function returning
  `Except PyExn α` and a total handler applied on top, exactly mirroring the
  handler clauses of the source.
* Python `None` in a JSON-derived position is modelled by `Json.null`; JSON
  objects decoded by `json.loads` have unique keys, modelled by association
  lists with first-match lookup.
* `subprocess.check_output` always emits a `run` event for the attempted
  invocation; the environment decides whether it returns output, raises
  `CalledProcessError`, or raises some other exception.
* Log messages are rebuilt from the f-strings of the source; the rendering
  of a caught exception object (the `str(e)` of Python) is abstracted by `exnMsg`,
  since its exact text depends on runtime details no claim refers to.
-/

namespace GhCli

/-- JSON values, as produced by the standard JSON decoder (`json.loads`). -/
inductive Json where
  | null
  | bool (b : Bool)
  | num (n : Int)
  | str (s : String)
  | arr (elems : List Json)
  | obj (fields : List (String × Json))

/-- Python exceptions that the embedded code can raise or catch. -/
inductive PyExn where
  | calledProcessError (returncode : Int)
  | ioError
  | jsonDecodeError
  | keyError (k : String)
  | typeError
  | attributeError
deriving DecidableEq

/-- Outcome of a `subprocess.check_output` invocation, chosen by the
environment: decoded stdout on success, `CalledProcessError` on non-zero
exit, or some other exception (e.g. executable missing). -/
inductive ProcResult where
  | ok (output : String)
  | fail (rc : Int)
  | exn
deriving DecidableEq

/-- Observable events of one call: file writes/deletions in the working
directory, attempted subprocess invocations, and log lines. -/
inductive Event where
  | fileWrite (name : String) (content : String)
  | fileDelete (name : String)
  | run (cmd : List String)
  | logInfo (msg : String)
  | logError (msg : String)
deriving DecidableEq

/-- Rendering `str(e)` of a caught exception (abstracted). -/
def exnMsg : PyExn → String
  | .calledProcessError rc => "Command returned non-zero exit status " ++ toString rc ++ "."
  | .ioError => "I/O error"
  | .jsonDecodeError => "Expecting value"
  | .keyError k => (Char.ofNat 39).toString ++ k ++ (Char.ofNat 39).toString
  | .typeError => "object is not subscriptable"
  | .attributeError => "object has no attribute upper"

/-- Python rendering of a boolean. -/
def pyBool (b : Bool) : String := if b then "True" else "False"

/-- Python repr of a string (quote escaping not modelled; no claim
depends on log text containing quotes). -/
def pyReprStr (s : String) : String :=
  (Char.ofNat 39).toString ++ s ++ (Char.ofNat 39).toString

/-- Python rendering of an `Optional[list[str]]` as in an f-string. -/
def pyReprOptList : Option (List String) → String
  | none => "None"
  | some xs => "[" ++ String.intercalate ", " (xs.map pyReprStr) ++ "]"

/-- Python rendering of a JSON-derived value in an f-string. -/
def pyStrJson : Json → String
  | .null => "None"
  | .bool b => pyBool b
  | .num n => toString n
  | .str s => s
  | .arr _ => "[...]"
  | .obj _ => "\x7b...\x7d"

/-- Applies a `try`/`except` handler: the events of the body are kept, a
raised exception is turned into the extra events and default value of the
handler. -/
def withHandler (r : List Event × Except PyExn α) (handle : PyExn → List Event × α) :
    List Event × Except PyExn α :=
  match r with
  | (tr, Except.ok a) => (tr, Except.ok a)
  | (tr, Except.error e) => (tr ++ (handle e).1, Except.ok (handle e).2)

/-- Source constant `EXECUTABLE = "gh"`. -/
def EXECUTABLE : String := "gh"

/-- Python `s.startswith(p)`: `p` is an initial segment of `s`,
character-wise. -/
def pyStartsWith (s p : String) : Bool :=
  s.data.take p.data.length == p.data

/-- Python upper-casing of a string (ASCII behaviour; every string the
embedded code compares an upper-cased value against is ASCII). -/
def pyUpper (s : String) : String :=
  String.mk (s.data.map Char.toUpper)

/-- Truthiness of a Python `Optional[list[str]]`: `None` and `[]` are falsy. -/
def truthy : Option (List String) → Bool
  | some (_ :: _) => true
  | _ => false

/-- Comma-join of the label list of the taken branch. -/
def joinComma (o : Option (List String)) : String :=
  String.intercalate "," (o.getD [])

/-- Body of `pr_label` up to its `try` block boundary; the `try` wraps only
the `check_output` call, everything before it cannot raise. -/
def pr_label_body (env : ProcResult) (add_labels remove_labels : Option (List String))
    (pr_number : String) : List Event × Except PyExn Unit :=
  let e0 := Event.logInfo ("Labeling PR: #" ++ pr_number ++ ", add_labels: " ++
    pyReprOptList add_labels ++ ", remove_labels: " ++ pyReprOptList remove_labels)
  let base := [EXECUTABLE, "pr", "edit", pr_number]
  if truthy add_labels then
    let cmd := base ++ ["--add-label", joinComma add_labels]
    match env with
    | ProcResult.ok out => ([e0, Event.run cmd, Event.logInfo out], Except.ok ())
    | ProcResult.fail rc => ([e0, Event.run cmd], Except.error (PyExn.calledProcessError rc))
    | ProcResult.exn => ([e0, Event.run cmd], Except.error PyExn.ioError)
  else if truthy remove_labels then
    let cmd := base ++ ["--remove-label", joinComma remove_labels]
    match env with
    | ProcResult.ok out => ([e0, Event.run cmd, Event.logInfo out], Except.ok ())
    | ProcResult.fail rc => ([e0, Event.run cmd], Except.error (PyExn.calledProcessError rc))
    | ProcResult.exn => ([e0, Event.run cmd], Except.error PyExn.ioError)
  else
    ([e0, Event.logInfo "No labels to add or remove, skipping"], Except.ok ())

/-- Function `pr_label(add_labels, remove_labels, pr_number)`: the single
`except Exception` clause logs and swallows every raised exception. -/
def pr_label (env : ProcResult) (add_labels remove_labels : Option (List String))
    (pr_number : String) : List Event × Except PyExn Unit :=
  withHandler (pr_label_body env add_labels remove_labels pr_number)
    (fun e => ([Event.logError ("Failed to label: " ++ exnMsg e)], ()))

/-- The subprocess invocations attempted during a trace, in order. -/
def runCmds (tr : List Event) : List (List String) :=
  tr.filterMap fun e => match e with | Event.run c => some c | _ => none

/-- Environment of one `pr_comment` call: whether opening and writing the
body file succeeds, and the outcome of the comment subprocess. -/
structure CommentEnv where
  write : Bool
  proc : ProcResult
deriving DecidableEq

/-- Source constant `body_file = "reply.md"`. -/
def body_file : String := "reply.md"

/-- Body of the `try` block of `pr_comment`: log, write the body file, build
`[gh, pr, comment, pr_number, --body-file, reply.md]` (appending
`--edit-last` when requested) and run it. -/
def pr_comment_body (env : CommentEnv) (body : String) (edit_last : Bool)
    (pr_number : String) : List Event × Except PyExn Unit :=
  let e0 := Event.logInfo ("Commenting on PR: #" ++ pr_number ++ ", edit_last: " ++
    pyBool edit_last)
  if env.write then
    let wr := Event.fileWrite body_file body
    let cmd := [EXECUTABLE, "pr", "comment", pr_number, "--body-file", body_file] ++
      (if edit_last then ["--edit-last"] else [])
    match env.proc with
    | ProcResult.ok out => ([e0, wr, Event.run cmd, Event.logInfo out], Except.ok ())
    | ProcResult.fail rc => ([e0, wr, Event.run cmd], Except.error (PyExn.calledProcessError rc))
    | ProcResult.exn => ([e0, wr, Event.run cmd], Except.error PyExn.ioError)
  else
    ([e0], Except.error PyExn.ioError)

/-- Function `pr_comment(body, edit_last, pr_number)`: the `except CalledProcessError`
clause logs the return code, the `except Exception` clause logs the
exception; both swallow it. -/
def pr_comment (env : CommentEnv) (body : String) (edit_last : Bool)
    (pr_number : String) : List Event × Except PyExn Unit :=
  withHandler (pr_comment_body env body edit_last pr_number)
    (fun e => match e with
      | PyExn.calledProcessError rc =>
        ([Event.logError ("Failed to comment: returned " ++ toString rc ++ ".")], ())
      | e => ([Event.logError ("Failed to comment: " ++ exnMsg e)], ()))

/-- The jq query string
`.comments | any(.author.login == "<user>" and (.body | contains("<sign>")))`. -/
def jqQuery (user sign : String) : String :=
  ".comments | any(.author.login == \"" ++ user ++
    "\" and (.body | contains(\"" ++ sign ++ "\")))"

/-- Command `[gh, pr, view, pr_number, --json, comments, --jq, <jqQuery>]`. -/
def viewCmd (pr_number user sign : String) : List String :=
  [EXECUTABLE, "pr", "view", pr_number, "--json", "comments", "--jq", jqQuery user sign]

/-- Environment of one `pr_update_or_comment` call: the outcome of the
`gh pr view` query and the environment of the nested `pr_comment` call. -/
structure UpsertEnv where
  view : ProcResult
  comment : CommentEnv
deriving DecidableEq

/-- Body of the `try` block of `pr_update_or_comment`: run the view query; if its
decoded output starts with `"true"`, call `pr_comment` with
`edit_last=True`, otherwise call `pr_comment` with `edit_last` left at its
default `False`. -/
def pr_update_or_comment_body (env : UpsertEnv) (user body pr_number sign : String) :
    List Event × Except PyExn Unit :=
  let cmd := viewCmd pr_number user sign
  match env.view with
  | ProcResult.ok out =>
    if pyStartsWith out "true" then
      let inner := pr_comment env.comment body true pr_number
      (Event.run cmd ::
        Event.logInfo ("Updating last comment of " ++ user ++ " on PR: #" ++ pr_number) ::
        inner.1, inner.2)
    else
      let inner := pr_comment env.comment body false pr_number
      (Event.run cmd :: inner.1, inner.2)
  | ProcResult.fail rc => ([Event.run cmd], Except.error (PyExn.calledProcessError rc))
  | ProcResult.exn => ([Event.run cmd], Except.error PyExn.ioError)

/-- Function `pr_update_or_comment(user, body, pr_number, sign)`: its two `except`
clauses log and swallow failures of the view query. -/
def pr_update_or_comment (env : UpsertEnv) (user body pr_number sign : String) :
    List Event × Except PyExn Unit :=
  withHandler (pr_update_or_comment_body env user body pr_number sign)
    (fun e => match e with
      | PyExn.calledProcessError rc =>
        ([Event.logError ("Failed to check last comment: returned " ++ toString rc ++ ".")], ())
      | e => ([Event.logError ("Failed to check last comment: " ++ exnMsg e)], ()))

/-- Source constant `CATALOGUE_REPO`, the catalogue repository name split
on the slash. -/
def CATALOGUE_REPO : List String := "MCDReforged/PluginCatalogue".splitOn "/"

/-- The GraphQL query string: the triple-quoted f-string of the source, split on
newlines, each line stripped, joined with single spaces (braces written as
escapes). -/
def graphqlQuery (pr_number : String) : String :=
  String.intercalate " " ((("\n    \x7b\n      repository(owner: \"" ++
    (CATALOGUE_REPO.getD 0 "") ++ "\", name: \"" ++ (CATALOGUE_REPO.getD 1 "") ++
    "\") \x7b\n        pullRequest(number: " ++ pr_number ++
    ") \x7b\n          author \x7b\n            login\n          \x7d\n          authorAssociation\n        \x7d\n      \x7d\n    \x7d\n    ").splitOn
    "\n").map String.trim)

/-- Command `[gh, api, graphql, -F, query=<query>]` (the source uses the
literal string gh here, not `EXECUTABLE`). -/
def fetchCmd (pr_number : String) : List String :=
  ["gh", "api", "graphql", "-F", "query=" ++ graphqlQuery pr_number]

/-- Outcome of the fetch in `check_contributor`: decoded JSON on success,
`badJson` when the process succeeded but `json.loads` raised, or a
subprocess failure. -/
inductive FetchResult where
  | ok (j : Json)
  | badJson
  | fail (rc : Int)
  | exn

/-- Python subscripting `j[k]`: looks the key up in a dict, raises
`KeyError` when missing and `TypeError` when `j` is not a dict. -/
def Json.index (j : Json) (k : String) : Except PyExn Json :=
  match j with
  | Json.obj fields =>
    match fields.lookup k with
    | some v => Except.ok v
    | none => Except.error (PyExn.keyError k)
  | _ => Except.error PyExn.typeError

/-- Subscript chain data / repository / pullRequest on the decoded JSON. -/
def extractPullRequest (j : Json) : Except PyExn Json :=
  ((j.index "data").bind (fun d => d.index "repository")).bind
    (fun r => r.index "pullRequest")

/-- Subscript chain data / repository / pullRequest / author / login. -/
def extractLogin (j : Json) : Except PyExn Json :=
  ((extractPullRequest j).bind (fun pr => pr.index "author")).bind
    (fun a => a.index "login")

/-- Subscript chain data / repository / pullRequest / authorAssociation
followed by upper-casing, which raises `AttributeError` on a non-string. -/
def extractAssocUpper (j : Json) : Except PyExn String :=
  (extractPullRequest j).bind (fun pr => (pr.index "authorAssociation").bind
    (fun a => match a with
      | Json.str s => Except.ok (pyUpper s)
      | _ => Except.error PyExn.attributeError))

/-- Body of the `try` block of `check_contributor`: run the GraphQL query, decode
its JSON, extract the author login and the upper-cased author association,
compare the association with the constant FIRST_TIME_CONTRIBUTOR. -/
def check_contributor_body (env : FetchResult) (pr_number : String) :
    List Event × Except PyExn (Json × Bool) :=
  let e0 := Event.logInfo ("Checking contributor for PR: #" ++ pr_number)
  let cmd := fetchCmd pr_number
  match env with
  | FetchResult.ok j =>
    match (extractLogin j).bind (fun login => (extractAssocUpper j).map
        (fun up => (login, up == "FIRST_TIME_CONTRIBUTOR"))) with
    | Except.ok (login, isFirst) =>
      ([e0, Event.run cmd,
        Event.logInfo ("Contributor: " ++ pyStrJson login ++ ", First Time: " ++
          pyBool isFirst)], Except.ok (login, isFirst))
    | Except.error e => ([e0, Event.run cmd], Except.error e)
  | FetchResult.badJson => ([e0, Event.run cmd], Except.error PyExn.jsonDecodeError)
  | FetchResult.fail rc => ([e0, Event.run cmd], Except.error (PyExn.calledProcessError rc))
  | FetchResult.exn => ([e0, Event.run cmd], Except.error PyExn.ioError)

/-- Function `check_contributor(pr_number)`: its single `except Exception` clause
logs the failure and returns `(None, False)`. -/
def check_contributor (env : FetchResult) (pr_number : String) :
    List Event × Except PyExn (Json × Bool) :=
  withHandler (check_contributor_body env pr_number)
    (fun e => ([Event.logError ("Failed to fetch contributor data: " ++ exnMsg e)],
      (Json.null, false)))

/-- Whether an event is a write of the comment-body file. -/
def isFileWrite : Event → Bool
  | Event.fileWrite _ _ => true
  | _ => false

/-- Whether an event is a file deletion. -/
def isFileDelete : Event → Bool
  | Event.fileDelete _ => true
  | _ => false

/-- Whether an exceptional result was raised. -/
def exceptFailed : Except PyExn α → Bool
  | Except.error _ => true
  | Except.ok _ => false

/-- The canonical response shape documented in the docstring of
`check_contributor`, with the two leaf fields as parameters. -/
def mkResponse (login assoc : Json) : Json :=
  Json.obj [("data", Json.obj [("repository", Json.obj [("pullRequest",
    Json.obj [("author", Json.obj [("login", login)]),
      ("authorAssociation", assoc)])])])]

theorem truthy_some (xs : List String) (h : xs ≠ []) : truthy (some xs) = true := by
  cases xs with
  | nil => exact absurd rfl h
  | cons a l => rfl

theorem withHandler_ok (r : List Event × Except PyExn α) (h : PyExn → List Event × α) :
    ∃ v, (withHandler r h).2 = Except.ok v := by
  obtain ⟨tr, res⟩ := r
  cases res with
  | ok a => exact ⟨a, rfl⟩
  | error e => exact ⟨(h e).2, rfl⟩

theorem withHandler_error (r : List Event × Except PyExn α)
    (handle : PyExn → List Event × α) (e : PyExn) (h : r.2 = Except.error e) :
    (withHandler r handle).2 = Except.ok (handle e).2 := by
  obtain ⟨tr, res⟩ := r
  have h2 : res = Except.error e := h
  subst h2
  rfl

theorem pr_comment_ok (env : CommentEnv) (body : String) (el : Bool) (pr : String) :
    (pr_comment env body el pr).2 = Except.ok () := by
  obtain ⟨v, hv⟩ := withHandler_ok (pr_comment_body env body el pr)
    (fun e => match e with
      | PyExn.calledProcessError rc =>
        ([Event.logError ("Failed to comment: returned " ++ toString rc ++ ".")], ())
      | e => ([Event.logError ("Failed to comment: " ++ exnMsg e)], ()))
  cases v
  exact hv

theorem pr_label_cmds (env : ProcResult) (add remove : Option (List String))
    (pr : String) :
    (truthy add = true →
      runCmds (pr_label env add remove pr).1 =
        [["gh", "pr", "edit", pr, "--add-label", joinComma add]]) ∧
    (truthy add = false → truthy remove = true →
      runCmds (pr_label env add remove pr).1 =
        [["gh", "pr", "edit", pr, "--remove-label", joinComma remove]]) ∧
    (truthy add = false → truthy remove = false →
      runCmds (pr_label env add remove pr).1 = []) := by
  refine ⟨fun h1 => ?_, fun h1 h2 => ?_, fun h1 h2 => ?_⟩ <;>
    cases env <;>
      simp_all [pr_label, pr_label_body, withHandler, runCmds, EXECUTABLE]

/-- C1: for every `pr_label` call, if `add_labels` is a non-empty list the
external tool is invoked exactly once with
`gh pr edit <pr> --add-label <comma-joined add_labels>` — a command that
does not depend on `remove_labels` and carries no `--remove-label` option;
else if `remove_labels` is non-empty the single invocation is
`gh pr edit <pr> --remove-label <comma-joined remove_labels>`; else the
external tool is never invoked. -/
theorem pr_label_precedence (env : ProcResult) (add remove : Option (List String))
    (pr : String) :
    (truthy add = true →
      runCmds (pr_label env add remove pr).1 =
        [["gh", "pr", "edit", pr, "--add-label", joinComma add]]) ∧
    (truthy add = false → truthy remove = true →
      runCmds (pr_label env add remove pr).1 =
        [["gh", "pr", "edit", pr, "--remove-label", joinComma remove]]) ∧
    (truthy add = false → truthy remove = false →
      runCmds (pr_label env add remove pr).1 = []) :=
  pr_label_cmds env add remove pr

theorem pr_label_precedence_witness :
    runCmds (pr_label (ProcResult.ok "") (some ["bug"]) (some ["stale"]) "1").1 =
      [["gh", "pr", "edit", "1", "--add-label", "bug"]] :=
  (pr_label_precedence (ProcResult.ok "") (some ["bug"]) (some ["stale"]) "1").1 rfl

/-- C10: a non-empty label list reaches the external tool joined with commas
as one single argument after `--add-label` (resp. `--remove-label`), so two
label lists with the same comma-join — e.g. a label containing a comma
versus two separate labels — produce identical invocations. -/
theorem pr_label_comma_join (env : ProcResult) (pr : String) (xs ys : List String)
    (hx : xs ≠ []) (hy : ys ≠ [])
    (hjoin : String.intercalate "," xs = String.intercalate "," ys) :
    runCmds (pr_label env (some xs) none pr).1 =
      [["gh", "pr", "edit", pr, "--add-label", String.intercalate "," xs]] ∧
    runCmds (pr_label env none (some xs) pr).1 =
      [["gh", "pr", "edit", pr, "--remove-label", String.intercalate "," xs]] ∧
    runCmds (pr_label env (some ys) none pr).1 =
      runCmds (pr_label env (some xs) none pr).1 := by
  have hxs := truthy_some xs hx
  have hys := truthy_some ys hy
  have h1 := (pr_label_cmds env (some xs) none pr).1 hxs
  have h2 := (pr_label_cmds env none (some xs) pr).2.1 rfl hxs
  have h3 := (pr_label_cmds env (some ys) none pr).1 hys
  refine ⟨h1, h2, ?_⟩
  rw [h1, h3]
  simp [joinComma, hjoin]

theorem pr_label_comma_join_witness :
    runCmds (pr_label (ProcResult.ok "") (some ["a,b"]) none "1").1 =
      runCmds (pr_label (ProcResult.ok "") (some ["a", "b"]) none "1").1 :=
  (pr_label_comma_join (ProcResult.ok "") "1" ["a", "b"] ["a,b"] (by decide)
    (by decide) (by decide)).2.2

/-- C5: every `pr_comment` call only ever invokes
`gh pr comment <pr> --body-file reply.md`, with `--edit-last` appended
exactly when `edit_last` is true; when the body-file write succeeds the
trace starts with the write of the full body to `reply.md` strictly before
the invocation, and when the write fails the tool is never invoked. -/
theorem pr_comment_spec (env : CommentEnv) (body : String) (el : Bool) (pr : String) :
    (∀ c ∈ runCmds (pr_comment env body el pr).1,
      c = [EXECUTABLE, "pr", "comment", pr, "--body-file", body_file] ++
        (if el then ["--edit-last"] else [])) ∧
    (env.write = true →
      ∃ rest, (pr_comment env body el pr).1 =
        Event.logInfo ("Commenting on PR: #" ++ pr ++ ", edit_last: " ++ pyBool el) ::
        Event.fileWrite body_file body ::
        Event.run ([EXECUTABLE, "pr", "comment", pr, "--body-file", body_file] ++
          (if el then ["--edit-last"] else [])) :: rest) ∧
    (env.write = false → runCmds (pr_comment env body el pr).1 = []) := by
  obtain ⟨w, p⟩ := env
  refine ⟨?_, ?_, ?_⟩ <;>
    cases w <;> cases p <;>
      simp [pr_comment, pr_comment_body, withHandler, runCmds]

theorem pr_comment_spec_witness :
    ∃ rest, (pr_comment ⟨true, ProcResult.ok "done"⟩ "hi" true "1").1 =
      Event.logInfo ("Commenting on PR: #" ++ "1" ++ ", edit_last: " ++ pyBool true) ::
      Event.fileWrite body_file "hi" ::
      Event.run ([EXECUTABLE, "pr", "comment", "1", "--body-file", body_file] ++
        (if true then ["--edit-last"] else [])) :: rest :=
  (pr_comment_spec ⟨true, ProcResult.ok "done"⟩ "hi" true "1").2.1 rfl

/-- C7 counterexample: a concrete successful `pr_comment` call writes the
body file but its trace contains no deletion event — the file is not
deleted after use. -/
theorem pr_comment_no_delete_counterexample :
    ((pr_comment ⟨true, ProcResult.ok "done"⟩ "hi" false "1").1.filter isFileWrite =
      [Event.fileWrite "reply.md" "hi"]) ∧
    ((pr_comment ⟨true, ProcResult.ok "done"⟩ "hi" false "1").1.filter isFileDelete =
      []) := by
  exact ⟨rfl, rfl⟩

/-- C7 (amended): every `pr_comment` call overwrites the same fixed-name
file `reply.md` with the new body (exactly one write when the write
succeeds, none when it fails) and never deletes any file: the file persists
after the call until a later call overwrites it. -/
theorem pr_comment_file_lifecycle (env : CommentEnv) (body : String) (el : Bool)
    (pr : String) :
    (pr_comment env body el pr).1.filter isFileWrite =
      (if env.write then [Event.fileWrite body_file body] else []) ∧
    (pr_comment env body el pr).1.filter isFileDelete = [] := by
  obtain ⟨w, p⟩ := env
  cases w <;> cases p <;>
    simp [pr_comment, pr_comment_body, withHandler, isFileWrite, isFileDelete]

/-- C2: when the structured-query subprocess of `pr_update_or_comment`
returns output, the call delegates to `pr_comment` with `edit_last=True`
exactly when the decoded output starts with `"true"`, and to `pr_comment`
with the default `edit_last=False` for any other output. -/
theorem upsert_branches (env : UpsertEnv) (user body pr sign out : String)
    (h : env.view = ProcResult.ok out) :
    (pyStartsWith out "true" = true →
      pr_update_or_comment env user body pr sign =
        (Event.run (viewCmd pr user sign) ::
          Event.logInfo ("Updating last comment of " ++ user ++ " on PR: #" ++ pr) ::
          (pr_comment env.comment body true pr).1, Except.ok ())) ∧
    (pyStartsWith out "true" = false →
      pr_update_or_comment env user body pr sign =
        (Event.run (viewCmd pr user sign) :: (pr_comment env.comment body false pr).1,
          Except.ok ())) := by
  have hokT := pr_comment_ok env.comment body true pr
  have hokF := pr_comment_ok env.comment body false pr
  refine ⟨fun hs => ?_, fun hs => ?_⟩ <;>
    simp [pr_update_or_comment, pr_update_or_comment_body, h, hs, withHandler,
      Prod.ext_iff, hokT, hokF]

theorem upsert_branches_witness :
    pr_update_or_comment ⟨ProcResult.ok ("true" ++ "\n"), ⟨true, ProcResult.ok "done"⟩⟩
        "bot" "hi" "1" "[sig]" =
      (Event.run (viewCmd "1" "bot" "[sig]") ::
        Event.logInfo ("Updating last comment of " ++ "bot" ++ " on PR: #" ++ "1") ::
        (pr_comment ⟨true, ProcResult.ok "done"⟩ "hi" true "1").1, Except.ok ()) :=
  (upsert_branches ⟨ProcResult.ok ("true" ++ "\n"), ⟨true, ProcResult.ok "done"⟩⟩
    "bot" "hi" "1" "[sig]" ("true" ++ "\n") rfl).1 (by decide)

/-- C9: when the structured-query subprocess of `pr_update_or_comment`
itself fails (non-zero exit or another exception before output is
obtained), no comment is posted at all — the whole trace is the attempted
view invocation followed by one error log, with no body-file write and no
comment invocation — and the call still returns normally. -/
theorem upsert_view_failure (env : UpsertEnv) (user body pr sign : String) :
    (∀ rc, env.view = ProcResult.fail rc →
      pr_update_or_comment env user body pr sign =
        ([Event.run (viewCmd pr user sign),
          Event.logError ("Failed to check last comment: returned " ++ toString rc ++ ".")],
          Except.ok ())) ∧
    (env.view = ProcResult.exn →
      pr_update_or_comment env user body pr sign =
        ([Event.run (viewCmd pr user sign),
          Event.logError ("Failed to check last comment: " ++ exnMsg PyExn.ioError)],
          Except.ok ())) := by
  refine ⟨fun rc h => ?_, fun h => ?_⟩ <;>
    simp [pr_update_or_comment, pr_update_or_comment_body, h, withHandler]

theorem upsert_view_failure_witness :
    pr_update_or_comment ⟨ProcResult.fail 1, ⟨true, ProcResult.ok ""⟩⟩
        "bot" "hi" "1" "[sig]" =
      ([Event.run (viewCmd "1" "bot" "[sig]"),
        Event.logError ("Failed to check last comment: returned " ++ toString (1 : Int) ++ ".")],
        Except.ok ()) :=
  (upsert_view_failure ⟨ProcResult.fail 1, ⟨true, ProcResult.ok ""⟩⟩
    "bot" "hi" "1" "[sig]").1 1 rfl

/-- C3: when the external tool succeeds and the documented fields are
present (author login and association both strings), `check_contributor`
returns the login paired with `True` exactly when the association,
upper-cased, equals `FIRST_TIME_CONTRIBUTOR`, and with `False` for every
other association value. -/
theorem check_contributor_first_time (pr name assoc : String) :
    (check_contributor (FetchResult.ok (mkResponse (Json.str name) (Json.str assoc)))
        pr).2 =
      Except.ok (Json.str name, pyUpper assoc == "FIRST_TIME_CONTRIBUTOR") := by
  simp [check_contributor, check_contributor_body, withHandler, mkResponse,
    extractLogin, extractAssocUpper, extractPullRequest, Json.index, List.lookup,
    Except.bind, Except.map]

/-- C4: `check_contributor` returns `(None, False)` and raises nothing when
the external tool exits non-zero, when its output is malformed JSON, when
some other exception occurs, and when any expected field of the decoded
document is missing (either extraction chain fails). -/
theorem check_contributor_failure_default (pr : String) (rc : Int) (j : Json)
    (hj : exceptFailed (extractLogin j) = true ∨
      exceptFailed (extractAssocUpper j) = true) :
    (check_contributor (FetchResult.fail rc) pr).2 = Except.ok (Json.null, false) ∧
    (check_contributor FetchResult.badJson pr).2 = Except.ok (Json.null, false) ∧
    (check_contributor FetchResult.exn pr).2 = Except.ok (Json.null, false) ∧
    (check_contributor (FetchResult.ok j) pr).2 = Except.ok (Json.null, false) := by
  refine ⟨rfl, rfl, rfl, ?_⟩
  cases h1 : extractLogin j with
  | error e => simp [check_contributor, check_contributor_body, withHandler, h1,
      Except.bind]
  | ok login =>
    cases h2 : extractAssocUpper j with
    | error e => simp [check_contributor, check_contributor_body, withHandler, h1,
        h2, Except.bind, Except.map]
    | ok s =>
      exfalso
      rcases hj with h | h <;> simp [exceptFailed, h1, h2] at h

theorem check_contributor_failure_default_witness :
    (check_contributor (FetchResult.ok (Json.obj [])) "1").2 =
      Except.ok (Json.null, false) :=
  (check_contributor_failure_default "1" 0 (Json.obj [])
    (Or.inl (by decide))).2.2.2

/-- C6: for every environment outcome, all four operations catch the
failure internally and return normally — `None` (unit) for the three
command operations and a value for `check_contributor`, which yields its
default `(None, False)` whenever its body raised. -/
theorem no_exception_propagates (cenv : CommentEnv) (lenv : ProcResult)
    (uenv : UpsertEnv) (fenv : FetchResult) (body pr user sign : String) (el : Bool)
    (add remove : Option (List String)) :
    (pr_comment cenv body el pr).2 = Except.ok () ∧
    (pr_label lenv add remove pr).2 = Except.ok () ∧
    (pr_update_or_comment uenv user body pr sign).2 = Except.ok () ∧
    (∃ v, (check_contributor fenv pr).2 = Except.ok v) ∧
    (exceptFailed (check_contributor_body fenv pr).2 = true →
      (check_contributor fenv pr).2 = Except.ok (Json.null, false)) := by
  refine ⟨pr_comment_ok cenv body el pr, ?_, ?_, ?_, ?_⟩
  · obtain ⟨v, hv⟩ := withHandler_ok (pr_label_body lenv add remove pr)
      (fun e => ([Event.logError ("Failed to label: " ++ exnMsg e)], ()))
    cases v
    exact hv
  · obtain ⟨v, hv⟩ := withHandler_ok (pr_update_or_comment_body uenv user body pr sign)
      (fun e => match e with
        | PyExn.calledProcessError rc =>
          ([Event.logError ("Failed to check last comment: returned " ++
            toString rc ++ ".")], ())
        | e => ([Event.logError ("Failed to check last comment: " ++ exnMsg e)], ()))
    cases v
    exact hv
  · exact withHandler_ok (check_contributor_body fenv pr)
      (fun e => ([Event.logError ("Failed to fetch contributor data: " ++ exnMsg e)],
        (Json.null, false)))
  · intro hfail
    cases hb : (check_contributor_body fenv pr).2 with
    | ok v => rw [hb] at hfail; simp [exceptFailed] at hfail
    | error e =>
      have hdef := withHandler_error (check_contributor_body fenv pr)
        (fun e => ([Event.logError ("Failed to fetch contributor data: " ++ exnMsg e)],
          (Json.null, false))) e hb
      exact hdef

/-- C8 counterexample: on a well-formed response whose `login` field is JSON
`null` and whose association is `FIRST_TIME_CONTRIBUTOR`, the extraction
succeeds with Python `None` as the login, so `check_contributor` returns
`(None, True)` — the second component can be `True` with a `None` first
component. -/
theorem check_contributor_none_true_counterexample :
    (check_contributor (FetchResult.ok (mkResponse Json.null
      (Json.str "FIRST_TIME_CONTRIBUTOR"))) "1").2 = Except.ok (Json.null, true) := rfl

/-- C8 (amended): whenever the second component of the result of
`check_contributor` is `True`, the fetch succeeded and both extraction chains succeeded,
the first component being exactly the extracted login value — non-`None`
unless the JSON `login` field is itself `null`; every failure path still
yields `(None, False)`. -/
theorem check_contributor_true_extraction (env : FetchResult) (pr : String)
    (v : Json × Bool) (hv : (check_contributor env pr).2 = Except.ok v)
    (ht : v.2 = true) :
    ∃ j s, env = FetchResult.ok j ∧ extractLogin j = Except.ok v.1 ∧
      extractAssocUpper j = Except.ok s ∧ s = "FIRST_TIME_CONTRIBUTOR" := by
  cases env with
  | badJson =>
    simp [check_contributor, check_contributor_body, withHandler] at hv
    rw [← hv] at ht
    simp at ht
  | fail rc =>
    simp [check_contributor, check_contributor_body, withHandler] at hv
    rw [← hv] at ht
    simp at ht
  | exn =>
    simp [check_contributor, check_contributor_body, withHandler] at hv
    rw [← hv] at ht
    simp at ht
  | ok j =>
    cases h1 : extractLogin j with
    | error e =>
      simp [check_contributor, check_contributor_body, withHandler, h1,
        Except.bind] at hv
      rw [← hv] at ht
      simp at ht
    | ok login =>
      cases h2 : extractAssocUpper j with
      | error e =>
        simp [check_contributor, check_contributor_body, withHandler, h1, h2,
          Except.bind, Except.map] at hv
        rw [← hv] at ht
        simp at ht
      | ok s =>
        simp [check_contributor, check_contributor_body, withHandler, h1, h2,
          Except.bind, Except.map] at hv
        rw [← hv] at ht
        simp at ht
        exact ⟨j, s, rfl, by rw [h1, ← hv], by rw [h2], ht⟩

theorem check_contributor_true_extraction_witness :
    ∃ j s,
      FetchResult.ok (mkResponse (Json.str "alice")
          (Json.str "first_time_contributor")) = FetchResult.ok j ∧
      extractLogin j = Except.ok (Json.str "alice", true).1 ∧
      extractAssocUpper j = Except.ok s ∧ s = "FIRST_TIME_CONTRIBUTOR" :=
  check_contributor_true_extraction
    (FetchResult.ok (mkResponse (Json.str "alice")
      (Json.str "first_time_contributor")))
    "1" (Json.str "alice", true) rfl rfl

theorem no_exception_propagates_witness :
    (check_contributor FetchResult.badJson "1").2 = Except.ok (Json.null, false) :=
  (no_exception_propagates ⟨true, ProcResult.ok ""⟩ (ProcResult.ok "")
    ⟨ProcResult.ok "", ⟨true, ProcResult.ok ""⟩⟩ FetchResult.badJson
    "b" "1" "u" "s" false none none).2.2.2.2 (by decide)

end GhCli
